import Mathlib

/-!
Shallow embedding of src/src/cpp/src/sqlite_wrapper.cpp.

The repository is an LD_PRELOAD-style shim around three SQLite entry points
(sqlite3_prepare_v2, sqlite3_step, sqlite3_finalize).  Each wrapper logs an
audit record to a DuckDB table and forwards to the original function, whose
address was resolved by dlsym in a load-time constructor.

Modelling choices:
- C strings passed by the application are Lean Strings; the result of
  sqlite3_sql, which may be a null pointer, is Option String.
- The three original function pointers are Option-valued fields of OrigTable
  (nullptr = none).  The behaviour of the real library is abstract: the
  original functions are arbitrary Lean functions supplied in those fields.
- The DuckDB connection g_duckdb_conn is the Bool field conn of SinkState
  (false = null unique_ptr); the persistent store is the Option-valued table
  (present schema or absent) plus the list of inserted rows.
- Calling through a null function pointer, or invoking Query on a null
  connection, is C++ undefined behaviour; the embedding makes it an explicit
  Outcome.ub / LogOutcome.nullDeref result instead of picking some value.
- A thrown-and-caught exception from an individual DuckDB insert is modelled
  by the per-call flag writeOk (false = the insert fails; the catch block in
  log_query swallows it and the record is dropped).
- gethostbyname returning no entry is hostEntry = none in HostEnv.
-/

namespace SqliteWrapper

/-- SQLite return code SQLITE_OK (sqlite3.h). -/
def SQLITE_OK : Int := 0

/-- SQLite return code SQLITE_ERROR (sqlite3.h). -/
def SQLITE_ERROR : Int := 1

/-- SQLite return code SQLITE_ROW (sqlite3.h). -/
def SQLITE_ROW : Int := 100

/-- SQLite return code SQLITE_DONE (sqlite3.h): no more rows. -/
def SQLITE_DONE : Int := 101

/-- One column of a CREATE TABLE statement: name and declared type. -/
structure Column where
  name : String
  ty : String
deriving DecidableEq, Repr

/-- The columns of the CREATE TABLE IF NOT EXISTS sqlite_queries statement
issued by init_duckdb_logging, transcribed from the DDL string. -/
def sqlite_queries_ddl : List Column :=
  [⟨"id", "INTEGER PRIMARY KEY"⟩,
   ⟨"query", "TEXT"⟩,
   ⟨"timestamp", "TIMESTAMP"⟩,
   ⟨"hostname", "VARCHAR"⟩,
   ⟨"ip", "VARCHAR"⟩,
   ⟨"thread_id", "INTEGER"⟩,
   ⟨"status", "VARCHAR"⟩]

/-- Declared type of a named column in a schema, none if no such column. -/
def columnType (schema : List Column) (n : String) : Option String :=
  (schema.find? (fun c => c.name = n)).map (fun c => c.ty)

/-- A value bound into the INSERT statement of log_query: either a bound
text parameter or the store-evaluated CURRENT_TIMESTAMP literal. -/
inductive SqlValue where
  | text : String → SqlValue
  | currentTimestamp : SqlValue
deriving DecidableEq, Repr

/-- The (column, value) pairs of the INSERT INTO sqlite_queries statement in
log_query: query, timestamp, hostname, ip, thread_id, status.  All bound
parameters are strings; the thread identifier is bound as the stringified
std::thread::id (ss.str()). -/
def insert_bound_values (sql hostname ip tid status : String) :
    List (String × SqlValue) :=
  [("query", SqlValue.text sql),
   ("timestamp", SqlValue.currentTimestamp),
   ("hostname", SqlValue.text hostname),
   ("ip", SqlValue.text ip),
   ("thread_id", SqlValue.text tid),
   ("status", SqlValue.text status)]

/-- Value bound for a named column in the INSERT of log_query. -/
def boundValue (vs : List (String × SqlValue)) (n : String) : Option SqlValue :=
  (vs.find? (fun p => p.1 = n)).map (fun p => p.2)

/-- A row of the sqlite_queries audit table as inserted by log_query (the id
and timestamp columns are generated by the store and not part of the bound
record). -/
structure AuditRecord where
  query : String
  hostname : String
  ip : String
  thread_id : String
  status : String
deriving DecidableEq, Repr

/-- Ambient host identity as seen by get_caller_info: the gethostname result
and the gethostbyname result (none when no entry is found). -/
structure HostEnv where
  hostname : String
  hostEntry : Option String
deriving DecidableEq, Repr

/-- get_caller_info: returns the hostname and, when gethostbyname yields an
entry, its first address, else the loopback default 127.0.0.1. -/
def get_caller_info (env : HostEnv) : String × String :=
  let ip : String :=
    match env.hostEntry with
    | some addr => addr
    | none => "127.0.0.1"
  (env.hostname, ip)

/-- State of the audit sink: whether g_duckdb_conn is non-null, whether the
persistent store holds the sqlite_queries table (and with which schema), and
the rows inserted so far. -/
structure SinkState where
  conn : Bool
  table : Option (List Column)
  rows : List AuditRecord
deriving DecidableEq, Repr

/-- Semantics of CREATE TABLE IF NOT EXISTS: creates the table only when the
store has none, otherwise leaves the existing table untouched. -/
def createTableIfNotExists (schema : List Column) (store : Option (List Column)) :
    Option (List Column) :=
  match store with
  | some existing => some existing
  | none => some schema

/-- init_duckdb_logging: opens the store and creates the connection (openOk
records whether this throws), then issues CREATE TABLE IF NOT EXISTS
sqlite_queries.  On an exception the catch block only prints a diagnostic,
leaving the null connection and the store as they were. -/
def init_duckdb_logging (openOk : Bool) (st : SinkState) : SinkState :=
  if openOk then
    { conn := true,
      table := createTableIfNotExists sqlite_queries_ddl st.table,
      rows := st.rows }
  else st

/-- Per-call ambient environment of a wrapped call: host identity, the
calling thread identifier already stringified, and whether the DuckDB insert
of this call succeeds. -/
structure CallEnv where
  host : HostEnv
  thread_id : String
  writeOk : Bool
deriving DecidableEq, Repr

/-- Outcome of one log_query call: record inserted; record dropped by the
catch block after a failed insert; or dereference of the null connection
(undefined behaviour, not caught). -/
inductive LogOutcome where
  | logged : LogOutcome
  | dropped : LogOutcome
  | nullDeref : LogOutcome
deriving DecidableEq, Repr

/-- The record log_query builds for one call: the SQL text, get_caller_info
hostname and ip, the stringified thread id, and the status string. -/
def audit_record (env : CallEnv) (sql status : String) : AuditRecord :=
  ⟨sql, (get_caller_info env.host).1, (get_caller_info env.host).2,
   env.thread_id, status⟩

/-- log_query: under the global mutex, builds the record and runs the
parameterized INSERT through g_duckdb_conn.  When the connection is null the
arrow operator dereferences it: undefined behaviour, nothing is caught.
When the insert throws, the catch block prints and drops the record. -/
def log_query (env : CallEnv) (sql status : String) (st : SinkState) :
    SinkState × LogOutcome :=
  if st.conn then
    if env.writeOk then
      ({ st with rows := st.rows ++ [audit_record env sql status] },
       LogOutcome.logged)
    else (st, LogOutcome.dropped)
  else (st, LogOutcome.nullDeref)

/-- State of a sqlite3_stmt as far as the wrapper observes it: the text
sqlite3_sql returns for it (none = null pointer), plus abstract internal
library state that the original step may advance. -/
structure StmtState where
  sql : Option String
  cursor : Nat
deriving DecidableEq, Repr

/-- Outputs of the original sqlite3_prepare_v2: the statement handle written
to ppStmt (none = null), the tail pointer written to pzTail, and the return
code. -/
structure PrepResult where
  stmt : Option StmtState
  tail : Option String
  rc : Int
deriving DecidableEq, Repr

/-- The three original function pointers resolved by dlsym; none models a
null pointer.  The functions themselves are the abstract behaviour of the
real SQLite library. -/
structure OrigTable where
  prepare_v2 : Option (Nat → String → Int → PrepResult)
  step : Option (StmtState → StmtState × Int)
  finalize : Option (StmtState → Int)

/-- The mutable globals of the shim: the original-implementation table and
the audit sink. -/
structure Globals where
  table : OrigTable
  sink : SinkState

/-- Result of one wrapped call: a value, or undefined behaviour (a call
through a null function pointer, or a dereference of the null connection). -/
inductive Outcome (α : Type) where
  | ok : α → Outcome α
  | ub : Outcome α
deriving DecidableEq, Repr

/-- Wrapped sqlite3_prepare_v2: logs the SQL text with status "prepared",
then calls the original through the stored pointer and returns its outputs
unchanged. -/
def sqlite3_prepare_v2 (g : Globals) (env : CallEnv) (db : Nat)
    (zSql : String) (nByte : Int) : Globals × Outcome PrepResult :=
  let r := log_query env zSql "prepared" g.sink
  let g2 : Globals := { g with sink := r.1 }
  match r.2 with
  | LogOutcome.nullDeref => (g2, Outcome.ub)
  | _ =>
    match g.table.prepare_v2 with
    | none => (g2, Outcome.ub)
    | some f => (g2, Outcome.ok (f db zSql nByte))

/-- Wrapped sqlite3_step: calls the original first, then reads sqlite3_sql
of the stepped statement; when it is non-null, logs with status "completed"
if the result is SQLITE_DONE and "executing" otherwise; returns the original
result. -/
def sqlite3_step (g : Globals) (env : CallEnv) (stmt : StmtState) :
    Globals × StmtState × Outcome Int :=
  match g.table.step with
  | none => (g, stmt, Outcome.ub)
  | some f =>
    let stmt2 := (f stmt).1
    let result := (f stmt).2
    match stmt2.sql with
    | none => (g, stmt2, Outcome.ok result)
    | some s =>
      let status := if result = SQLITE_DONE then "completed" else "executing"
      let r := log_query env s status g.sink
      match r.2 with
      | LogOutcome.nullDeref => ({ g with sink := r.1 }, stmt2, Outcome.ub)
      | _ => ({ g with sink := r.1 }, stmt2, Outcome.ok result)

/-- Wrapped sqlite3_finalize: reads sqlite3_sql before finalizing; when it
is non-null, logs with status "finalized"; then calls the original finalize
and returns its result. -/
def sqlite3_finalize (g : Globals) (env : CallEnv) (stmt : StmtState) :
    Globals × Outcome Int :=
  match stmt.sql with
  | some s =>
    let r := log_query env s "finalized" g.sink
    let g2 : Globals := { g with sink := r.1 }
    match r.2 with
    | LogOutcome.nullDeref => (g2, Outcome.ub)
    | _ =>
      match g.table.finalize with
      | none => (g2, Outcome.ub)
      | some f => (g2, Outcome.ok (f stmt))
  | none =>
    match g.table.finalize with
    | none => (g, Outcome.ub)
    | some f => (g, Outcome.ok (f stmt))

/-- Load-time environment of the constructor: whether opening the DuckDB
store succeeds, whether dlopen of libsqlite3.so succeeds, and the three
dlsym results (none = the symbol did not resolve). -/
structure LoadEnv where
  openOk : Bool
  dlopenOk : Bool
  dlsymPrepare : Option (Nat → String → Int → PrepResult)
  dlsymStep : Option (StmtState → StmtState × Int)
  dlsymFinalize : Option (StmtState → Int)

/-- The constructor init: initializes DuckDB logging, then dlopens the real
SQLite library; on dlopen failure it prints and returns, leaving the
pointers null.  Otherwise it stores the three dlsym results; when any of
them is null it prints a diagnostic and returns, keeping whatever resolved. -/
def init (env : LoadEnv) (g : Globals) : Globals :=
  let g1 : Globals := { g with sink := init_duckdb_logging env.openOk g.sink }
  if env.dlopenOk then
    { g1 with table := ⟨env.dlsymPrepare, env.dlsymStep, env.dlsymFinalize⟩ }
  else g1

/-- Process state before the constructor runs: null function pointers, null
connection, no rows, and a fresh store without the audit table. -/
def g0 : Globals :=
  { table := ⟨none, none, none⟩,
    sink := { conn := false, table := none, rows := [] } }

/-- Concrete sample behaviour of the original prepare, for witnesses. -/
def fp0 : Nat → String → Int → PrepResult :=
  fun _ z _ => ⟨some ⟨some z, 0⟩, some "", SQLITE_OK⟩

/-- Concrete sample behaviour of the original step: one row, then done. -/
def fs0 : StmtState → StmtState × Int :=
  fun s => ({ s with cursor := s.cursor + 1 },
            if s.cursor = 0 then SQLITE_ROW else SQLITE_DONE)

/-- Concrete sample behaviour of the original finalize. -/
def ff0 : StmtState → Int := fun _ => SQLITE_OK

/-- Concrete sample behaviour of an original prepare that rejects its
input with SQLITE_ERROR and writes no statement handle. -/
def fpErr : Nat → String → Int → PrepResult :=
  fun _ _ _ => ⟨none, none, SQLITE_ERROR⟩

/-- Concrete host identity whose address resolution succeeds. -/
def host0 : HostEnv := ⟨"testhost", some "192.0.2.7"⟩

/-- Concrete call environment with a successful insert. -/
def cenv0 : CallEnv := ⟨host0, "140213", true⟩

/-- Globals after a fully successful load: all three pointers resolved,
connection open, audit table created, no rows yet. -/
def gReady : Globals :=
  { table := ⟨some fp0, some fs0, some ff0⟩,
    sink := { conn := true, table := some sqlite_queries_ddl, rows := [] } }

/-- Concrete statement handle carrying SQL text. -/
def stmt0 : StmtState := ⟨some "SELECT 1", 0⟩

/-- Concrete statement handle whose sqlite3_sql text is the empty string. -/
def stmtEmpty : StmtState := ⟨some "", 0⟩

/-- Concrete statement handle for which sqlite3_sql returns null. -/
def stmtNoSql : StmtState := ⟨none, 0⟩

/-- Load environment in which dlopen succeeds but only the prepare symbol
resolves; step and finalize come back null from dlsym. -/
def loadPartial : LoadEnv := ⟨true, true, some fp0, none, none⟩

/-- Load environment in which opening the DuckDB store throws, while all
three SQLite symbols resolve. -/
def loadSinkFail : LoadEnv := ⟨false, true, some fp0, some fs0, some ff0⟩

/-- Reduction of log_query when the connection is non-null. -/
theorem log_query_conn_true (env : CallEnv) (sql status : String)
    (st : SinkState) (hc : st.conn = true) :
    log_query env sql status st =
      if env.writeOk then
        ({ st with rows := st.rows ++ [audit_record env sql status] },
         LogOutcome.logged)
      else (st, LogOutcome.dropped) := by
  simp [log_query, hc]

/-- C1: the claim says that after a failed symbol resolution every wrapped
call is a defined failure that never invokes a null address, and the table
is never partially populated yet usable.  The code refutes this: with step
and finalize unresolved, init leaves the table partially populated, the
wrapped step call goes straight through the null pointer (undefined
behaviour), and the wrapped prepare still forwards normally. -/
theorem c1_resolution_failure_calls_null_address :
    (init loadPartial g0).table.step = none
    ∧ (sqlite3_step (init loadPartial g0) cenv0 stmt0).2.2 = Outcome.ub
    ∧ (sqlite3_finalize (init loadPartial g0) cenv0 stmtNoSql).2 = Outcome.ub
    ∧ (sqlite3_prepare_v2 (init loadPartial g0) cenv0 7 "SELECT 1" (-1)).2
        = Outcome.ok (fp0 7 "SELECT 1" (-1)) :=
  ⟨rfl, rfl, rfl, rfl⟩

/-- C3: the claim says a sink-initialization failure turns every write into
a no-op while wrapped operations stay fully functional.  The code refutes
this: after init with a failed store open the connection is null, log_query
dereferences it (undefined behaviour, not caught by the try block), and the
wrapped prepare call itself ends in undefined behaviour instead of
forwarding. -/
theorem c3_sink_init_failure_null_deref :
    (init loadSinkFail g0).sink.conn = false
    ∧ (log_query cenv0 "SELECT 1" "prepared" (init loadSinkFail g0).sink).2
        = LogOutcome.nullDeref
    ∧ (sqlite3_prepare_v2 (init loadSinkFail g0) cenv0 7 "SELECT 1" (-1)).2
        = Outcome.ub :=
  ⟨rfl, rfl, rfl⟩

/-- C2: with all three original pointers resolved and the sink connection
non-null, each wrapped entry point returns exactly the return code and
output parameters of the original function on the same inputs, whatever the
per-call environment and whether or not the audit insert succeeds. -/
theorem c2_wrappers_forward_unchanged (g : Globals) (env : CallEnv)
    (fp : Nat → String → Int → PrepResult) (fs : StmtState → StmtState × Int)
    (ff : StmtState → Int)
    (hp : g.table.prepare_v2 = some fp) (hs : g.table.step = some fs)
    (hf : g.table.finalize = some ff) (hc : g.sink.conn = true)
    (db : Nat) (zSql : String) (nByte : Int) (stmt : StmtState) :
    (sqlite3_prepare_v2 g env db zSql nByte).2 = Outcome.ok (fp db zSql nByte)
    ∧ (sqlite3_step g env stmt).2.1 = (fs stmt).1
    ∧ (sqlite3_step g env stmt).2.2 = Outcome.ok ((fs stmt).2)
    ∧ (sqlite3_finalize g env stmt).2 = Outcome.ok (ff stmt) := by
  refine ⟨?_, ?_, ?_, ?_⟩
  · simp only [sqlite3_prepare_v2, log_query_conn_true env zSql "prepared" g.sink hc, hp]
    by_cases hw : env.writeOk <;> simp [hw]
  · simp only [sqlite3_step, hs]
    cases hsql : ((fs stmt).1).sql with
    | none => simp [hsql]
    | some s =>
      simp only [hsql, log_query_conn_true _ _ _ _ hc]
      by_cases hw : env.writeOk <;> simp [hw]
  · simp only [sqlite3_step, hs]
    cases hsql : ((fs stmt).1).sql with
    | none => simp [hsql]
    | some s =>
      simp only [hsql, log_query_conn_true _ _ _ _ hc]
      by_cases hw : env.writeOk <;> simp [hw]
  · cases hsql : stmt.sql with
    | none => simp [sqlite3_finalize, hsql, hf]
    | some s =>
      simp only [sqlite3_finalize, hsql, log_query_conn_true _ _ _ _ hc, hf]
      by_cases hw : env.writeOk <;> simp [hw]

/-- Witness for c2_wrappers_forward_unchanged at the concrete ready state. -/
theorem c2_forward_witness :
    (gReady.table.prepare_v2 = some fp0 ∧ gReady.table.step = some fs0
      ∧ gReady.table.finalize = some ff0 ∧ gReady.sink.conn = true)
    ∧ ((sqlite3_prepare_v2 gReady cenv0 7 "SELECT 1" (-1)).2
          = Outcome.ok (fp0 7 "SELECT 1" (-1))
        ∧ (sqlite3_step gReady cenv0 stmt0).2.1 = (fs0 stmt0).1
        ∧ (sqlite3_step gReady cenv0 stmt0).2.2 = Outcome.ok ((fs0 stmt0).2)
        ∧ (sqlite3_finalize gReady cenv0 stmt0).2 = Outcome.ok (ff0 stmt0)) :=
  ⟨⟨rfl, rfl, rfl, rfl⟩,
   c2_wrappers_forward_unchanged gReady cenv0 fp0 fs0 ff0 rfl rfl rfl rfl
     7 "SELECT 1" (-1) stmt0⟩

/-- Globals whose step pointer returns SQLITE_ROW without touching the
statement, with an open sink; used to exercise the empty-text path. -/
def gRowStep : Globals :=
  { table := ⟨none, some (fun s => (s, SQLITE_ROW)), none⟩,
    sink := { conn := true, table := some sqlite_queries_ddl, rows := [] } }

/-- C4 counterexample: the claim says empty-or-unavailable SQL text
suppresses logging, but the code only tests the pointer for null; on a
statement whose sqlite3_sql text is the empty string, the wrapped step
submits one audit record (with empty query text and status executing). -/
theorem c4_step_empty_text_logged :
    (sqlite3_step gRowStep cenv0 stmtEmpty).1.sink.rows
      = [audit_record cenv0 "" "executing"]
    ∧ (audit_record cenv0 "" "executing").query = ""
    ∧ (sqlite3_step gRowStep cenv0 stmtEmpty).2.2 = Outcome.ok SQLITE_ROW :=
  ⟨rfl, rfl, rfl⟩

/-- C4 amended: the wrapped step forwards to the original first and returns
its code unchanged; when sqlite3_sql of the stepped statement is null it
submits no record, and otherwise (empty text included) it submits exactly
one record whose status is completed when the code is SQLITE_DONE and
executing for every other code. -/
theorem c4_step_characterization (g : Globals) (env : CallEnv)
    (fs : StmtState → StmtState × Int) (stmt : StmtState)
    (hs : g.table.step = some fs) (hc : g.sink.conn = true)
    (hw : env.writeOk = true) :
    (sqlite3_step g env stmt).2.2 = Outcome.ok ((fs stmt).2)
    ∧ (sqlite3_step g env stmt).2.1 = (fs stmt).1
    ∧ (sqlite3_step g env stmt).1.sink.rows =
        (match ((fs stmt).1).sql with
         | none => g.sink.rows
         | some s => g.sink.rows ++
             [audit_record env s
               (if (fs stmt).2 = SQLITE_DONE then "completed" else "executing")]) := by
  refine ⟨?_, ?_, ?_⟩ <;>
    · simp only [sqlite3_step, hs]
      cases hsql : ((fs stmt).1).sql with
      | none => simp [hsql]
      | some s =>
        simp only [hsql, log_query_conn_true _ _ _ _ hc, hw]
        simp

/-- Witness for c4_step_characterization on a statement with SQL text,
stepping to completion. -/
theorem c4_step_witness :
    (gReady.table.step = some fs0 ∧ gReady.sink.conn = true
      ∧ cenv0.writeOk = true)
    ∧ ((sqlite3_step gReady cenv0 ⟨some "SELECT 1", 1⟩).2.2
          = Outcome.ok ((fs0 ⟨some "SELECT 1", 1⟩).2)
        ∧ (sqlite3_step gReady cenv0 ⟨some "SELECT 1", 1⟩).2.1
          = (fs0 ⟨some "SELECT 1", 1⟩).1
        ∧ (sqlite3_step gReady cenv0 ⟨some "SELECT 1", 1⟩).1.sink.rows =
            (match ((fs0 ⟨some "SELECT 1", 1⟩).1).sql with
             | none => gReady.sink.rows
             | some s => gReady.sink.rows ++
                 [audit_record cenv0 s
                   (if (fs0 ⟨some "SELECT 1", 1⟩).2 = SQLITE_DONE
                    then "completed" else "executing")])) :=
  ⟨⟨rfl, rfl, rfl⟩,
   c4_step_characterization gReady cenv0 fs0 ⟨some "SELECT 1", 1⟩ rfl rfl rfl⟩

/-- C5: for every SQL text, the wrapped prepare appends exactly one audit
record, whose query field is the input verbatim and whose status is
prepared, and forwards to the original, returning its outputs untouched;
the same record is appended even when no original pointer is available to
forward to, so the submission precedes and does not depend on the forward. -/
theorem c5_prepare_logs_verbatim (g : Globals) (env : CallEnv) (db : Nat)
    (zSql : String) (nByte : Int) (fp : Nat → String → Int → PrepResult)
    (hp : g.table.prepare_v2 = some fp) (hc : g.sink.conn = true)
    (hw : env.writeOk = true) :
    (sqlite3_prepare_v2 g env db zSql nByte).1.sink.rows
      = g.sink.rows ++ [audit_record env zSql "prepared"]
    ∧ (audit_record env zSql "prepared").query = zSql
    ∧ (audit_record env zSql "prepared").status = "prepared"
    ∧ (sqlite3_prepare_v2 g env db zSql nByte).2 = Outcome.ok (fp db zSql nByte)
    ∧ (sqlite3_prepare_v2
          { g with table := { g.table with prepare_v2 := none } }
          env db zSql nByte).1.sink.rows
        = g.sink.rows ++ [audit_record env zSql "prepared"] := by
  refine ⟨?_, rfl, rfl, ?_, ?_⟩
  · simp only [sqlite3_prepare_v2, log_query_conn_true env zSql "prepared" g.sink hc, hp, hw]
    simp
  · simp only [sqlite3_prepare_v2, log_query_conn_true env zSql "prepared" g.sink hc, hp, hw]
    simp
  · simp only [sqlite3_prepare_v2, log_query_conn_true env zSql "prepared" g.sink hc, hw]
    simp

/-- Witness for c5_prepare_logs_verbatim at a concrete query. -/
theorem c5_prepare_witness :
    (gReady.table.prepare_v2 = some fp0 ∧ gReady.sink.conn = true
      ∧ cenv0.writeOk = true)
    ∧ ((sqlite3_prepare_v2 gReady cenv0 7 "SELECT * FROM users" (-1)).1.sink.rows
          = gReady.sink.rows ++ [audit_record cenv0 "SELECT * FROM users" "prepared"]
        ∧ (audit_record cenv0 "SELECT * FROM users" "prepared").query
          = "SELECT * FROM users"
        ∧ (audit_record cenv0 "SELECT * FROM users" "prepared").status = "prepared"
        ∧ (sqlite3_prepare_v2 gReady cenv0 7 "SELECT * FROM users" (-1)).2
          = Outcome.ok (fp0 7 "SELECT * FROM users" (-1))
        ∧ (sqlite3_prepare_v2
              { gReady with table := { gReady.table with prepare_v2 := none } }
              cenv0 7 "SELECT * FROM users" (-1)).1.sink.rows
            = gReady.sink.rows ++ [audit_record cenv0 "SELECT * FROM users" "prepared"]) :=
  ⟨⟨rfl, rfl, rfl⟩,
   c5_prepare_logs_verbatim gReady cenv0 7 "SELECT * FROM users" (-1) fp0 rfl rfl rfl⟩

/-- C6 counterexample: the claim says every valid statement handle yields
exactly one finalized record, but on a handle whose sqlite3_sql text is
null (as for statements from the older prepare interface) the wrapped
finalize submits no record at all, while still returning the original
finalize code. -/
theorem c6_finalize_no_sql_no_record :
    (sqlite3_finalize gReady cenv0 stmtNoSql).1.sink.rows = []
    ∧ (sqlite3_finalize gReady cenv0 stmtNoSql).2 = Outcome.ok (ff0 stmtNoSql)
    ∧ ff0 stmtNoSql = SQLITE_OK :=
  ⟨rfl, rfl, rfl⟩

/-- C6 amended: the wrapped finalize reads the SQL text before invoking the
original finalize; when the text is present it submits exactly one record
with status finalized (also when no finalize pointer is available, showing
the submission precedes the original call), when the text is null it
submits none; in both cases it returns the original finalize code. -/
theorem c6_finalize_characterization (g : Globals) (env : CallEnv)
    (ff : StmtState → Int) (stmt : StmtState)
    (hf : g.table.finalize = some ff) (hc : g.sink.conn = true)
    (hw : env.writeOk = true) :
    (sqlite3_finalize g env stmt).2 = Outcome.ok (ff stmt)
    ∧ (sqlite3_finalize g env stmt).1.sink.rows =
        (match stmt.sql with
         | none => g.sink.rows
         | some s => g.sink.rows ++ [audit_record env s "finalized"])
    ∧ (sqlite3_finalize
          { g with table := { g.table with finalize := none } }
          env stmt).1.sink.rows =
        (match stmt.sql with
         | none => g.sink.rows
         | some s => g.sink.rows ++ [audit_record env s "finalized"]) := by
  refine ⟨?_, ?_, ?_⟩ <;>
    · cases hsql : stmt.sql with
      | none => simp [sqlite3_finalize, hsql, hf]
      | some s =>
        simp only [sqlite3_finalize, hsql, log_query_conn_true _ _ _ _ hc, hf, hw]
        simp

/-- Witness for c6_finalize_characterization on a handle with SQL text. -/
theorem c6_finalize_witness :
    (gReady.table.finalize = some ff0 ∧ gReady.sink.conn = true
      ∧ cenv0.writeOk = true)
    ∧ ((sqlite3_finalize gReady cenv0 stmt0).2 = Outcome.ok (ff0 stmt0)
        ∧ (sqlite3_finalize gReady cenv0 stmt0).1.sink.rows =
            (match stmt0.sql with
             | none => gReady.sink.rows
             | some s => gReady.sink.rows ++ [audit_record cenv0 s "finalized"])
        ∧ (sqlite3_finalize
              { gReady with table := { gReady.table with finalize := none } }
              cenv0 stmt0).1.sink.rows =
            (match stmt0.sql with
             | none => gReady.sink.rows
             | some s => gReady.sink.rows ++ [audit_record cenv0 s "finalized"])) :=
  ⟨⟨rfl, rfl, rfl⟩,
   c6_finalize_characterization gReady cenv0 ff0 stmt0 rfl rfl rfl⟩

/-- C7 counterexample: the claim says the thread identifier is stored in a
text column, not a numeric one, and calls the address column address; in
the DDL the thread_id column is declared INTEGER (a numeric type, neither
TEXT nor VARCHAR) and the address column is named ip. -/
theorem c7_thread_id_numeric_column :
    columnType sqlite_queries_ddl "thread_id" = some "INTEGER"
    ∧ columnType sqlite_queries_ddl "thread_id" ≠ some "TEXT"
    ∧ columnType sqlite_queries_ddl "thread_id" ≠ some "VARCHAR"
    ∧ columnType sqlite_queries_ddl "address" = none := by
  decide

/-- C7 amended: sink initialization on a fresh store creates the table with
columns id INTEGER PRIMARY KEY, query TEXT, timestamp TIMESTAMP, hostname
VARCHAR, ip VARCHAR, thread_id INTEGER, status VARCHAR; the timestamp is
bound as CURRENT_TIMESTAMP (store-evaluated at insert time) and the thread
identifier value is bound as the stringified thread id, although the
declared column type is the numeric INTEGER, not a text type. -/
theorem c7_schema_as_implemented (st : SinkState) (hfresh : st.table = none)
    (sql hostname ip tid status : String) :
    (init_duckdb_logging true st).table = some sqlite_queries_ddl
    ∧ columnType sqlite_queries_ddl "id" = some "INTEGER PRIMARY KEY"
    ∧ columnType sqlite_queries_ddl "query" = some "TEXT"
    ∧ columnType sqlite_queries_ddl "timestamp" = some "TIMESTAMP"
    ∧ columnType sqlite_queries_ddl "hostname" = some "VARCHAR"
    ∧ columnType sqlite_queries_ddl "ip" = some "VARCHAR"
    ∧ columnType sqlite_queries_ddl "thread_id" = some "INTEGER"
    ∧ columnType sqlite_queries_ddl "status" = some "VARCHAR"
    ∧ boundValue (insert_bound_values sql hostname ip tid status) "thread_id"
        = some (SqlValue.text tid)
    ∧ boundValue (insert_bound_values sql hostname ip tid status) "timestamp"
        = some SqlValue.currentTimestamp := by
  refine ⟨?_, by decide, by decide, by decide, by decide, by decide, by decide,
    by decide, ?_, ?_⟩
  · simp [init_duckdb_logging, createTableIfNotExists, hfresh]
  · simp [boundValue, insert_bound_values]
  · simp [boundValue, insert_bound_values]

/-- Witness for c7_schema_as_implemented on the fresh store of g0. -/
theorem c7_schema_witness :
    g0.sink.table = none
    ∧ ((init_duckdb_logging true g0.sink).table = some sqlite_queries_ddl
        ∧ columnType sqlite_queries_ddl "id" = some "INTEGER PRIMARY KEY"
        ∧ columnType sqlite_queries_ddl "query" = some "TEXT"
        ∧ columnType sqlite_queries_ddl "timestamp" = some "TIMESTAMP"
        ∧ columnType sqlite_queries_ddl "hostname" = some "VARCHAR"
        ∧ columnType sqlite_queries_ddl "ip" = some "VARCHAR"
        ∧ columnType sqlite_queries_ddl "thread_id" = some "INTEGER"
        ∧ columnType sqlite_queries_ddl "status" = some "VARCHAR"
        ∧ boundValue (insert_bound_values "SELECT 1" "testhost" "192.0.2.7"
            "140213" "prepared") "thread_id" = some (SqlValue.text "140213")
        ∧ boundValue (insert_bound_values "SELECT 1" "testhost" "192.0.2.7"
            "140213" "prepared") "timestamp" = some SqlValue.currentTimestamp) :=
  ⟨rfl, c7_schema_as_implemented g0.sink rfl "SELECT 1" "testhost" "192.0.2.7"
    "140213" "prepared"⟩

/-- C8: get_caller_info always returns a (hostname, address) pair, and when
gethostbyname yields no entry the address is the loopback default
127.0.0.1; consequently every audit row written while resolution keeps
failing carries 127.0.0.1 in its ip field, and the log call reports success
to its caller (no failure escapes). -/
theorem c8_identity_loopback_fallback (env : CallEnv)
    (hfail : env.host.hostEntry = none) (sql status : String)
    (st : SinkState) (hc : st.conn = true) (hw : env.writeOk = true) :
    get_caller_info env.host = (env.host.hostname, "127.0.0.1")
    ∧ (audit_record env sql status).ip = "127.0.0.1"
    ∧ (log_query env sql status st).1.rows
        = st.rows ++ [audit_record env sql status]
    ∧ (log_query env sql status st).2 = LogOutcome.logged := by
  refine ⟨?_, ?_, ?_, ?_⟩
  · simp [get_caller_info, hfail]
  · simp [audit_record, get_caller_info, hfail]
  · simp [log_query_conn_true env sql status st hc, hw]
  · simp [log_query_conn_true env sql status st hc, hw]

/-- Call environment whose address resolution fails, for the C8 witness. -/
def cenvNoAddr : CallEnv := ⟨⟨"testhost", none⟩, "140213", true⟩

/-- Sink state with an open connection and empty row list. -/
def sinkOpen : SinkState :=
  { conn := true, table := some sqlite_queries_ddl, rows := [] }

/-- Witness for c8_identity_loopback_fallback at a concrete failing
resolution. -/
theorem c8_identity_witness :
    (cenvNoAddr.host.hostEntry = none ∧ sinkOpen.conn = true
      ∧ cenvNoAddr.writeOk = true)
    ∧ (get_caller_info cenvNoAddr.host = (cenvNoAddr.host.hostname, "127.0.0.1")
        ∧ (audit_record cenvNoAddr "SELECT 1" "prepared").ip = "127.0.0.1"
        ∧ (log_query cenvNoAddr "SELECT 1" "prepared" sinkOpen).1.rows
            = sinkOpen.rows ++ [audit_record cenvNoAddr "SELECT 1" "prepared"]
        ∧ (log_query cenvNoAddr "SELECT 1" "prepared" sinkOpen).2
            = LogOutcome.logged) :=
  ⟨⟨rfl, rfl, rfl⟩,
   c8_identity_loopback_fallback cenvNoAddr rfl "SELECT 1" "prepared" sinkOpen
     rfl rfl⟩

/-- C9: initializing the sink over a store that already contains the audit
table neither errors nor duplicates it: the store keeps the one existing
table with its schema and rows, only the connection is (re)established, and
running initialization twice equals running it once. -/
theorem c9_sink_init_idempotent (st : SinkState)
    (h : st.table = some sqlite_queries_ddl) :
    init_duckdb_logging true st = { st with conn := true }
    ∧ (init_duckdb_logging true st).table = some sqlite_queries_ddl
    ∧ init_duckdb_logging true (init_duckdb_logging true st)
        = init_duckdb_logging true st := by
  refine ⟨?_, ?_, ?_⟩ <;>
    simp [init_duckdb_logging, createTableIfNotExists, h]

/-- Sink state produced by a first successful initialization from the fresh
store, for the C9 witness. -/
def sinkOnce : SinkState := init_duckdb_logging true g0.sink

/-- Witness for c9_sink_init_idempotent: the second initialization over the
store left by the first one. -/
theorem c9_sink_init_witness :
    sinkOnce.table = some sqlite_queries_ddl
    ∧ (init_duckdb_logging true sinkOnce = { sinkOnce with conn := true }
        ∧ (init_duckdb_logging true sinkOnce).table = some sqlite_queries_ddl
        ∧ init_duckdb_logging true (init_duckdb_logging true sinkOnce)
            = init_duckdb_logging true sinkOnce) :=
  ⟨rfl, c9_sink_init_idempotent sinkOnce rfl⟩

/-- C10: the prepared record is submitted before the original prepare is
consulted, so a call whose original prepare rejects the SQL with an error
code still appends exactly one prepared record while the error code is
forwarded unchanged; the audit trail thus contains rows for statements that
were never successfully prepared. -/
theorem c10_prepare_logs_on_error (g : Globals) (env : CallEnv) (db : Nat)
    (zSql : String) (nByte : Int) (fp : Nat → String → Int → PrepResult)
    (hp : g.table.prepare_v2 = some fp) (hc : g.sink.conn = true)
    (hw : env.writeOk = true) (herr : (fp db zSql nByte).rc = SQLITE_ERROR) :
    (sqlite3_prepare_v2 g env db zSql nByte).1.sink.rows
      = g.sink.rows ++ [audit_record env zSql "prepared"]
    ∧ (sqlite3_prepare_v2 g env db zSql nByte).2 = Outcome.ok (fp db zSql nByte)
    ∧ (Outcome.ok (fp db zSql nByte) : Outcome PrepResult) ≠ Outcome.ok ⟨(fp db zSql nByte).stmt, (fp db zSql nByte).tail, SQLITE_OK⟩ := by
  refine ⟨?_, ?_, ?_⟩
  · simp only [sqlite3_prepare_v2, log_query_conn_true env zSql "prepared" g.sink hc, hp, hw]
    simp
  · simp only [sqlite3_prepare_v2, log_query_conn_true env zSql "prepared" g.sink hc, hp, hw]
    simp
  · intro hcontra
    have h1 : (fp db zSql nByte).rc = SQLITE_OK := by
      have h2 := congrArg (fun o => match o with
        | Outcome.ok r => r.rc
        | Outcome.ub => SQLITE_ERROR) hcontra
      simpa using h2
    rw [herr] at h1
    simp [SQLITE_ERROR, SQLITE_OK] at h1

/-- Globals whose original prepare rejects every input, for the C10
witness. -/
def gRejects : Globals :=
  { table := ⟨some fpErr, none, none⟩, sink := sinkOpen }

/-- Witness for c10_prepare_logs_on_error on SQL the original rejects. -/
theorem c10_prepare_error_witness :
    (gRejects.table.prepare_v2 = some fpErr ∧ gRejects.sink.conn = true
      ∧ cenv0.writeOk = true ∧ (fpErr 7 "SELEKT 1" (-1)).rc = SQLITE_ERROR)
    ∧ ((sqlite3_prepare_v2 gRejects cenv0 7 "SELEKT 1" (-1)).1.sink.rows
          = gRejects.sink.rows ++ [audit_record cenv0 "SELEKT 1" "prepared"]
        ∧ (sqlite3_prepare_v2 gRejects cenv0 7 "SELEKT 1" (-1)).2
          = Outcome.ok (fpErr 7 "SELEKT 1" (-1))
        ∧ (Outcome.ok (fpErr 7 "SELEKT 1" (-1)) : Outcome PrepResult)
            ≠ Outcome.ok ⟨(fpErr 7 "SELEKT 1" (-1)).stmt,
                (fpErr 7 "SELEKT 1" (-1)).tail, SQLITE_OK⟩) :=
  ⟨⟨rfl, rfl, rfl, rfl⟩,
   c10_prepare_logs_on_error gRejects cenv0 7 "SELEKT 1" (-1) fpErr rfl rfl rfl rfl⟩

end SqliteWrapper
